import Mathlib

/-!
Verification of the PCA9685 PWM servo driver (src/i2cServoPCA9685.py).

Shallow embedding conventions:
* Python float arithmetic is modelled exactly: over the rationals for the
  prescaler computation, over the reals for the angle-to-pulse conversion
  (the radians branch involves pi).  No rounding of binary floats is
  modelled; all concrete values appearing in the claims are exactly
  representable and far from rounding boundaries.
* The smbus transport is an external collaborator; it is modelled as a
  `Bus` record of primitives that either succeed or raise IOError
  (write primitives: a Bool success flag; read: an `Option` result).
* Each chip-facing method is compiled to a function from the bus
  behaviour to a result record: the successful bus writes it performed,
  the messages it printed, and the exception (if any) escaping the call.
* The constructor stores its attributes under their Python names; the
  attribute lookup `self.X` is modelled by a case-sensitive search of
  that list, so that a lookup of a never-assigned name yields `none`
  (Python raises AttributeError there).
-/

/-! ### Register and bit constants (from the PWN_DRIVER constructor) -/

def MODE1 : ℕ := 0x00
def MODE2 : ℕ := 0x01
def SUBADR1 : ℕ := 0x02
def SUBADR2 : ℕ := 0x03
def SUBADR3 : ℕ := 0x04
def PRESCALE : ℕ := 0xFE
def LED0_ON_L : ℕ := 0x06
def LED0_ON_H : ℕ := 0x07
def LED0_OFF_L : ℕ := 0x08
def LED0_OFF_H : ℕ := 0x09
def ALL_LED_ON_L : ℕ := 0xFA
def ALL_LED_ON_H : ℕ := 0xFB
def ALL_LED_OFF_L : ℕ := 0xFC
def ALL_LED_OFF_H : ℕ := 0xFD
def RESTART : ℕ := 0x80
def SLEEP : ℕ := 0x10
def ALLCALL : ℕ := 0x01
def INVRT : ℕ := 0x10
def OUTDRV : ℕ := 0x04
def MAX_DEGREE : ℕ := 180
def MIN_PWR : ℕ := 150
def MAX_PWR : ℕ := 600

/-! ### Prescaler arithmetic (setFreq, lines 136-141, 149) -/

/-- Value of the Python variable `presc` after
`presc = math.floor(25000000.0 / 4096.0 / freq - 1.0 + 0.5)`,
modelled exactly over the rationals. -/
def prescQ (freq : ℚ) : ℚ :=
  ((⌊25000000 / 4096 / freq - 1 + 1 / 2⌋ : ℤ) : ℚ)

/-- The integer actually written to the PRESCALE register:
`int(math.floor(presc))`. -/
def prescaleVal (freq : ℚ) : ℤ := ⌊prescQ freq⌋

lemma prescaleVal_eq (freq : ℚ) :
    prescaleVal freq = ⌊25000000 / 4096 / freq - 1 + 1 / 2⌋ := by
  simp [prescaleVal, prescQ]

lemma prescaleVal_sixty : prescaleVal 60 = 101 := by
  rw [prescaleVal_eq, Int.floor_eq_iff]
  norm_num

/-! ### Angle-to-pulse arithmetic (turn_degrees, lines 209-215) -/

/-- Model of Python `math.radians`. -/
noncomputable def radiansFn (x : ℝ) : ℝ := x * Real.pi / 180

/-- Pulse computed by the degrees branch of turn_degrees:
`self.MIN_PWR + (self.MAX_PWR - self.MIN_PWR) * deg / self.MAX_DEGREE`. -/
noncomputable def pulseOfDeg (deg : ℝ) : ℝ :=
  (MIN_PWR : ℝ) + ((MAX_PWR : ℝ) - (MIN_PWR : ℝ)) * deg / (MAX_DEGREE : ℝ)

/-- Pulse computed by the radians branch of turn_degrees:
`self.MIN_PWR + (self.MAX_PWR - self.MIN_PWR) * rad / math.radians(self.MAX_DEGREE)`. -/
noncomputable def pulseOfRad (rad : ℝ) : ℝ :=
  (MIN_PWR : ℝ) + ((MAX_PWR : ℝ) - (MIN_PWR : ℝ)) * rad / radiansFn (MAX_DEGREE : ℝ)

lemma pulseOfDeg_ninety : pulseOfDeg 90 = 375 := by
  norm_num [pulseOfDeg, MIN_PWR, MAX_PWR, MAX_DEGREE]

/-! ### Bus transport and driver object model -/

/-- Exceptions that can escape a method in this module. -/
inductive PyExc
| busErr
| attrErr
deriving DecidableEq

/-- A successful bus transaction that mutates the chip:
either `write_byte(addr, reg)` or `write_byte_data(addr, reg, val)`. -/
inductive BusEv
| wByte (addr reg : ℕ)
| wData (addr reg : ℕ) (val : ℤ)

/-- Behaviour of the smbus transport: each write primitive either succeeds
(`true`) or raises IOError (`false`); a read either returns a byte
(`some v`) or raises IOError (`none`). -/
structure Bus where
  writeByteOk : ℕ → ℕ → Bool
  writeDataOk : ℕ → ℕ → ℤ → Bool
  readData : ℕ → ℕ → Option ℕ

/-- The attributes the PWN_DRIVER constructor assigns on `self`
(the smbus handle itself carries no integer value and is omitted). -/
structure Drv where
  DRIVER_ADDR : ℕ
  I2C_CHAN : ℤ
  DEBUG : ℤ

/-- All (name, value) pairs assigned by `__init__`, in assignment order. -/
def Drv.attrs (d : Drv) : List (String × ℤ) :=
  [("DEBUG", d.DEBUG), ("I2C_CHAN", d.I2C_CHAN), ("DRIVER_ADDR", (d.DRIVER_ADDR : ℤ)),
   ("MODE1", 0x00), ("MODE2", 0x01), ("SUBADR1", 0x02), ("SUBADR2", 0x03),
   ("SUBADR3", 0x04), ("PRESCALE", 0xFE), ("LED0_ON_L", 0x06), ("LED0_ON_H", 0x07),
   ("LED0_OFF_L", 0x08), ("LED0_OFF_H", 0x09), ("ALL_LED_ON_L", 0xFA),
   ("ALL_LED_ON_H", 0xFB), ("ALL_LED_OFF_L", 0xFC), ("ALL_LED_OFF_H", 0xFD),
   ("RESTART", 0x80), ("SLEEP", 0x10), ("ALLCALL", 0x01), ("INVRT", 0x10),
   ("OUTDRV", 0x04), ("MAX_DEGREE", 180), ("MIN_PWR", 150), ("MAX_PWR", 600)]

/-- Python attribute lookup `self.n`: `none` means AttributeError. -/
def Drv.getattr (d : Drv) (n : String) : Option ℤ :=
  ((d.attrs.find? (fun p => p.1 == n)).map (fun p => p.2))

lemma getattr_Debug (d : Drv) : d.getattr ("Debug") = none := rfl

lemma getattr_DEBUG (d : Drv) : d.getattr ("DEBUG") = some d.DEBUG := rfl

/-- Result of running one chip-facing method against a bus behaviour:
the bus writes that took effect, the messages printed, the exception
escaping the call (if any), and the invocations of the `servo` method it
made (as (channel, on, off) triples).  `initialize`, `setFreq` and
`servo` never call `servo` themselves, so their `servoCalls` is `[]`. -/
structure MRes where
  writes : List BusEv
  diags : List String
  exc : Option PyExc
  servoCalls : List (ℕ × ℕ × ℝ)

/-- Runs a sequence of `write_byte_data(addr, reg, val)` calls, stopping at
the first one whose primitive raises; returns the successful prefix and
whether all of them succeeded. -/
def tryWrites (bus : Bus) (addr : ℕ) : List (ℕ × ℤ) → List BusEv × Bool
  | [] => ([], true)
  | (r, v) :: rest =>
    if bus.writeDataOk addr r v then
      match tryWrites bus addr rest with
      | (evs, ok) => (BusEv.wData addr r v :: evs, ok)
    else ([], false)

/-! ### servo (setChannel), source lines 171-194 -/

/-- The four (register, byte) pairs servo writes for a channel:
ON low/high then OFF low/high, at offset 4*channel. -/
def servoWrites (channel onT offT : ℕ) : List (ℕ × ℕ) :=
  [(LED0_ON_L + 4 * channel, onT &&& 0xFF),
   (LED0_ON_H + 4 * channel, onT >>> 8),
   (LED0_OFF_L + 4 * channel, offT &&& 0xFF),
   (LED0_OFF_H + 4 * channel, offT >>> 8)]

def servoErrMsg (channel addr : ℕ) : String :=
  "Channel: " ++ toString channel ++ " gave errors on self.DRIVER ADDR: " ++ toString addr

def servoOkMsg (channel onT offT : ℕ) : String :=
  "Servo on channel: " ++ toString channel ++ " set to on: " ++ toString onT ++
    " and to off: " ++ toString offT

/-- Model of `servo(channel, on, off)`: the try block issues the four
register writes; IOError is caught with a diagnostic; on full success the
else block evaluates `self.Debug`, an attribute `__init__` never assigns,
so AttributeError escapes. -/
def servoRun (d : Drv) (bus : Bus) (channel onT offT : ℕ) : MRes :=
  match tryWrites bus d.DRIVER_ADDR
      ((servoWrites channel onT offT).map (fun p => (p.1, (p.2 : ℤ)))) with
  | (evs, false) => ⟨evs, [servoErrMsg channel d.DRIVER_ADDR], none, []⟩
  | (evs, true) =>
    match d.getattr ("Debug") with
    | none => ⟨evs, [], some PyExc.attrErr, []⟩
    | some v => ⟨evs, if v ≠ 0 then [servoOkMsg channel onT offT] else [], none, []⟩

/-! ### setFreq, source lines 136-161 -/

def setFreqErrMsg (addr : ℕ) (freq : ℚ) : String :=
  "setFreq  gave errors on self.DRIVER ADDR: " ++ toString addr ++
    ". With frequency set to " ++ toString freq ++ "Hz"

def setFreqOkMsg (freq : ℚ) : String :=
  "Frequency set to " ++ toString freq ++ "Hz"

/-- The four writes of the setFreq try block, given the mode register
value `oldm` read beforehand: sleep mode (`newm = (oldm & 0x7F) | 0x10`),
prescaler, restore `oldm`, then restart (`oldm | 0x80`). -/
def setFreqWrites (oldm : ℤ) (freq : ℚ) : List (ℕ × ℤ) :=
  [(MODE1, Int.lor (Int.land oldm 0x7F) 0x10),
   (PRESCALE, ⌊prescQ freq⌋),
   (MODE1, oldm),
   (MODE1, Int.lor oldm 0x80)]

/-- The part of `setFreq(freq)` from the try block on, given the mode
register value `oldm` already read: IOError in the four writes is caught
with a diagnostic; on full success the else block evaluates the
never-assigned attribute `self.Debug` and AttributeError escapes. -/
def setFreqAfterRead (d : Drv) (bus : Bus) (freq : ℚ) (oldm : ℤ) : MRes :=
  match tryWrites bus d.DRIVER_ADDR (setFreqWrites oldm freq) with
  | (evs, false) => ⟨evs, [setFreqErrMsg d.DRIVER_ADDR freq], none, []⟩
  | (evs, true) =>
    match d.getattr ("Debug") with
    | none => ⟨evs, [], some PyExc.attrErr, []⟩
    | some v => ⟨evs, if v ≠ 0 then [setFreqOkMsg freq] else [], none, []⟩

/-- Model of `setFreq(freq)`.  The read of MODE1 happens before the try
block, so an IOError there escapes the method. -/
def setFreq (d : Drv) (bus : Bus) (freq : ℚ) : MRes :=
  match bus.readData d.DRIVER_ADDR MODE1 with
  | none => ⟨[], [], some PyExc.busErr, []⟩
  | some oldm => setFreqAfterRead d bus freq (oldm : ℤ)

/-! ### initialize, source lines 82-128 -/

def initErrMsg (addr : ℕ) : String :=
  "initialize  gave errors on self.DRIVER ADDR: " ++ toString addr

def initOkMsg : String := "Done intializing the driver"

/-- The write_byte_data calls of the try block after the initial
write_byte: zero the four ALL_LED registers, then MODE2 and MODE1. -/
def initDataWrites : List (ℕ × ℤ) :=
  [(ALL_LED_ON_L, Int.land 0 0xFF), (ALL_LED_ON_H, (0 : ℤ) >>> 8),
   (ALL_LED_OFF_L, Int.land 0 0xFF), (ALL_LED_OFF_H, Int.land 0 0xFF),
   (MODE2, (OUTDRV : ℤ)), (MODE1, (ALLCALL : ℤ))]

/-- The try block of initialize: the software-reset write_byte, the six
data writes, the MODE1 read, and the write clearing the sleep bit
(`mode1 & ~SLEEP`).  Returns the successful writes and whether the whole
block completed (IOError anywhere sends control to the except clause). -/
def initTryBlock (d : Drv) (bus : Bus) : List BusEv × Bool :=
  if bus.writeByteOk d.DRIVER_ADDR LED0_ON_L then
    match tryWrites bus d.DRIVER_ADDR initDataWrites with
    | (evs, false) => (BusEv.wByte d.DRIVER_ADDR LED0_ON_L :: evs, false)
    | (evs, true) =>
      match bus.readData d.DRIVER_ADDR MODE1 with
      | none => (BusEv.wByte d.DRIVER_ADDR LED0_ON_L :: evs, false)
      | some m1 =>
        let cleared : ℤ := Int.land (m1 : ℤ) (Int.lnot (SLEEP : ℤ))
        if bus.writeDataOk d.DRIVER_ADDR MODE1 cleared then
          (BusEv.wByte d.DRIVER_ADDR LED0_ON_L :: evs ++
            [BusEv.wData d.DRIVER_ADDR MODE1 cleared], true)
        else (BusEv.wByte d.DRIVER_ADDR LED0_ON_L :: evs, false)
  else ([], false)

/-- Model of `initialize()`: the try/except/else around the register
setup (the except prints a diagnostic, the else prints only under
`self.DEBUG`, which does exist), followed unconditionally by
`self.setFreq(60)` outside any try, whose exception escapes. -/
def initDriver (d : Drv) (bus : Bus) : MRes :=
  let p := initTryBlock d bus
  let sf := setFreq d bus 60
  ⟨p.1 ++ sf.writes,
   (if p.2 then (if d.DEBUG ≠ 0 then [initOkMsg] else [])
    else [initErrMsg d.DRIVER_ADDR]) ++ sf.diags,
   sf.exc, []⟩

/-! ### turn_degrees (setAngle), source lines 202-222 -/

/-- Result of turn_degrees up to (and including) the servo invocations it
makes: the (channel, on, off) triples passed to `servo`, whether the
usage message was printed (the early-return branch), and any exception
raised by turn_degrees before reaching `servo`. -/
structure TDRes where
  servoCalls : List (ℕ × ℕ × ℝ)
  usage : Bool
  raises : Option PyExc

/-- Model of `turn_degrees(channel, deg, rad)`.  The guard mirrors
`if channel is None or (deg is None and rad is None)`; otherwise the
degrees branch wins when `deg` is given, else the radians branch, and the
result is passed to `servo(channel, 0, turn_degree)`. -/
noncomputable def turn_degrees (_d : Drv) (channel : Option ℕ)
    (deg rad : Option ℝ) : TDRes :=
  match channel, deg, rad with
  | none, _, _ => ⟨[], true, none⟩
  | some _, none, none => ⟨[], true, none⟩
  | some c, some dg, _ => ⟨[(c, 0, pulseOfDeg dg)], false, none⟩
  | some c, none, some r => ⟨[(c, 0, pulseOfRad r)], false, none⟩

/-! ### Helper lemmas -/

/-- Reassembling the high byte and the low byte recovers the original
tick value. -/
lemma byte_recombine (n : ℕ) : ((n >>> 8) <<< 8) ||| (n &&& 255) = n := by
  apply Nat.eq_of_testBit_eq
  intro i
  rcases Nat.lt_or_ge i 8 with h | h
  · rw [Nat.testBit_lor, Nat.testBit_shiftLeft, Nat.testBit_and]
    have h255 : Nat.testBit 255 i = true := by interval_cases i <;> decide
    have h8 : ¬ (8 ≤ i) := by omega
    simp [h8, h255]
  · rw [Nat.testBit_lor, Nat.testBit_shiftLeft, Nat.testBit_and, Nat.testBit_shiftRight]
    have h255 : Nat.testBit 255 i = false := by
      apply Nat.testBit_lt_two_pow
      calc 255 < 2 ^ 8 := by norm_num
      _ ≤ 2 ^ i := Nat.pow_le_pow_right (by norm_num) h
    have heq : 8 + (i - 8) = i := by omega
    simp [h, h255, heq]

/-- When every data write succeeds, `tryWrites` performs them all. -/
lemma tryWrites_all_ok (bus : Bus) (addr : ℕ)
    (h : ∀ r v, bus.writeDataOk addr r v = true) :
    ∀ ws : List (ℕ × ℤ),
      tryWrites bus addr ws = (ws.map (fun p => BusEv.wData addr p.1 p.2), true) := by
  intro ws
  induction ws with
  | nil => rfl
  | cons w rest ih =>
    obtain ⟨r, v⟩ := w
    simp [tryWrites, h, ih]

/-- The radians branch of the pulse conversion agrees exactly with the
degrees branch on the corresponding angle. -/
lemma pulseOfRad_radians (dg : ℝ) : pulseOfRad (radiansFn dg) = pulseOfDeg dg := by
  have hpi : Real.pi ≠ 0 := Real.pi_ne_zero
  unfold pulseOfRad pulseOfDeg radiansFn MIN_PWR MAX_PWR MAX_DEGREE
  field_simp
  ring

/-! ### Claim theorems -/

/-- Claim C1, as stated, is false at freqHz = 60: the prescaler the code
computes there is 101, not 120 (counterexample). -/
theorem spec_C1_cex : prescaleVal 60 = 101 ∧ prescaleVal 60 ≠ 120 := by
  refine ⟨prescaleVal_sixty, ?_⟩
  rw [prescaleVal_sixty]
  decide

/-- Claim C1 (amended): for every frequency freqHz in 40..1000 Hz, the
prescaler computed by setFreq equals floor(25000000/4096/freqHz - 1 + 0.5)
as an exact integer; in particular, for freqHz = 60 the computed prescale
value is 101. -/
theorem spec_C1 :
    (∀ freq : ℚ, 40 ≤ freq → freq ≤ 1000 →
      prescaleVal freq = ⌊25000000 / 4096 / freq - 1 + 1 / 2⌋) ∧
    prescaleVal 60 = 101 :=
  ⟨fun freq _ _ => prescaleVal_eq freq, prescaleVal_sixty⟩

/-- Witness for C1 at the concrete frequency 60 Hz. -/
theorem spec_C1_witness :
    prescaleVal 60 = ⌊25000000 / 4096 / (60 : ℚ) - 1 + 1 / 2⌋ :=
  spec_C1.1 60 (by norm_num) (by norm_num)

/-- Claim C4: for every degrees value in [0, 180], the pulse computed by
the degrees branch of turn_degrees equals 150 + 450 * degrees / 180; in
particular pulse(0) = 150, pulse(90) = 375 and pulse(180) = 600. -/
theorem spec_C4 :
    (∀ (d : Drv) (c : ℕ) (dg : ℝ), 0 ≤ dg → dg ≤ 180 →
      (turn_degrees d (some c) (some dg) none).servoCalls =
        [(c, 0, 150 + 450 * dg / 180)]) ∧
    pulseOfDeg 0 = 150 ∧ pulseOfDeg 90 = 375 ∧ pulseOfDeg 180 = 600 := by
  refine ⟨fun d c dg _ _ => ?_, by norm_num [pulseOfDeg, MIN_PWR, MAX_PWR, MAX_DEGREE],
    pulseOfDeg_ninety, by norm_num [pulseOfDeg, MIN_PWR, MAX_PWR, MAX_DEGREE]⟩
  show [(c, 0, pulseOfDeg dg)] = [(c, (0 : ℕ), 150 + 450 * dg / 180)]
  norm_num [pulseOfDeg, MIN_PWR, MAX_PWR, MAX_DEGREE]

/-- Witness for C4 at 90 degrees on channel 0. -/
theorem spec_C4_witness :
    (turn_degrees ⟨0x40, 1, 0⟩ (some 0) (some 90) none).servoCalls =
      [(0, 0, 150 + 450 * (90 : ℝ) / 180)] :=
  spec_C4.1 ⟨0x40, 1, 0⟩ 0 90 (by norm_num) (by norm_num)

/-- Claim C5: for every angle given in radians equivalent to a degrees
value in [0, 180], the radians branch of turn_degrees computes the same
pulse as the degrees branch; in particular the pulse for pi/2 radians
equals the pulse for 90 degrees.  The agreement is exact over the reals. -/
theorem spec_C5 :
    (∀ dg : ℝ, 0 ≤ dg → dg ≤ 180 → pulseOfRad (radiansFn dg) = pulseOfDeg dg) ∧
    (∀ (d : Drv) (c : ℕ) (dg : ℝ), 0 ≤ dg → dg ≤ 180 →
      (turn_degrees d (some c) none (some (radiansFn dg))).servoCalls =
        (turn_degrees d (some c) (some dg) none).servoCalls) ∧
    pulseOfRad (Real.pi / 2) = pulseOfDeg 90 := by
  have hhalf : Real.pi / 2 = radiansFn 90 := by
    unfold radiansFn; ring
  refine ⟨fun dg _ _ => pulseOfRad_radians dg, fun d c dg _ _ => ?_, ?_⟩
  · show [(c, (0 : ℕ), pulseOfRad (radiansFn dg))] = [(c, (0 : ℕ), pulseOfDeg dg)]
    rw [pulseOfRad_radians]
  · rw [hhalf, pulseOfRad_radians]

/-- Witness for C5 at 90 degrees. -/
theorem spec_C5_witness : pulseOfRad (radiansFn 90) = pulseOfDeg 90 :=
  spec_C5.1 90 (by norm_num) (by norm_num)

/-- Claim C6: for all on and off ticks in [0, 4095] and any channel, the
four register bytes written by servo recombine to the original ticks:
(OnHigh <<< 8) ||| OnLow = on and (OffHigh <<< 8) ||| OffLow = off. -/
theorem spec_C6 (c onT offT lo1 hi1 lo2 hi2 r1 r2 r3 r4 : ℕ)
    (_honT : onT ≤ 4095) (_hoffT : offT ≤ 4095)
    (hw : servoWrites c onT offT = [(r1, lo1), (r2, hi1), (r3, lo2), (r4, hi2)]) :
    (hi1 <<< 8) ||| lo1 = onT ∧ (hi2 <<< 8) ||| lo2 = offT := by
  simp only [servoWrites, List.cons.injEq, Prod.mk.injEq, List.nil_eq] at hw
  obtain ⟨⟨-, h1⟩, ⟨-, h2⟩, ⟨-, h3⟩, ⟨-, h4⟩, -⟩ := hw
  subst h1; subst h2; subst h3; subst h4
  exact ⟨byte_recombine onT, byte_recombine offT⟩

/-- Witness for C6 on channel 3 with on = 4095 and off = 1234. -/
theorem spec_C6_witness :
    ((4095 >>> 8) <<< 8) ||| (4095 &&& 255) = 4095 ∧
    ((1234 >>> 8) <<< 8) ||| (1234 &&& 255) = 1234 :=
  spec_C6 3 4095 1234 (4095 &&& 255) (4095 >>> 8) (1234 &&& 255) (1234 >>> 8)
    (LED0_ON_L + 4 * 3) (LED0_ON_H + 4 * 3) (LED0_OFF_L + 4 * 3) (LED0_OFF_H + 4 * 3)
    (by decide) (by decide) rfl

/-- Claim C7: a call to turn_degrees in which neither a degrees value nor
a radians value is supplied makes no servo invocation (hence no bus
write), prints the usage message, and raises no exception. -/
theorem spec_C7 (d : Drv) (channel : Option ℕ) :
    turn_degrees d channel none none = ⟨[], true, none⟩ := by
  cases channel <;> rfl

/-- Claim C10: when a channel, a degrees value and a radians value are
all supplied, turn_degrees is not rejected: the degrees value alone
determines the pulse and the radians value is ignored. -/
theorem spec_C10 (d : Drv) (c : ℕ) (dg r : ℝ) :
    turn_degrees d (some c) (some dg) (some r) = ⟨[(c, 0, pulseOfDeg dg)], false, none⟩ ∧
    turn_degrees d (some c) (some dg) (some r) = turn_degrees d (some c) (some dg) none :=
  ⟨rfl, rfl⟩

/-! ### Concrete bus behaviours and a concrete driver, for witnesses -/

/-- Driver constructed with the default arguments (0x40, 1, DEBUG=0). -/
def drv0 : Drv := ⟨0x40, 1, 0⟩

/-- A fresh, fully working chip stub: every primitive succeeds and every
read returns 0. -/
def okBus : Bus := ⟨fun _ _ => true, fun _ _ _ => true, fun _ _ => some 0⟩

/-- A bus whose reads raise IOError while writes succeed. -/
def readFailBus : Bus := ⟨fun _ _ => true, fun _ _ _ => true, fun _ _ => none⟩

/-- A bus whose writes all raise IOError while reads return 0. -/
def writeFailBus : Bus := ⟨fun _ _ => false, fun _ _ _ => false, fun _ _ => some 0⟩

/-! ### Error-propagation claims -/

/-- Claim C2, as stated, is false: on a bus whose read primitive raises
BusIOError, setFreq propagates the error (its MODE1 read sits before the
try block), and initialize propagates it too through its unprotected
setFreq(60) call (counterexample). -/
theorem spec_C2_cex :
    (setFreq drv0 readFailBus 60).exc = some PyExc.busErr ∧
    (initDriver drv0 readFailBus).exc = some PyExc.busErr := ⟨rfl, rfl⟩

/-- Claim C2 (amended): BusIOError raised by any write inside the try
blocks is caught locally (servo never lets a bus error escape, and
setFreq never lets one escape once its initial read succeeded), but the
MODE1 read in setFreq happens before the try block, so a BusIOError
there escapes setFreq, and initialize forwards the exception of its
trailing setFreq(60) call. -/
theorem spec_C2 :
    (∀ (d : Drv) (bus : Bus) (c onT offT : ℕ),
      (servoRun d bus c onT offT).exc ≠ some PyExc.busErr) ∧
    (∀ (d : Drv) (bus : Bus) (freq : ℚ),
      bus.readData d.DRIVER_ADDR MODE1 = none →
      (setFreq d bus freq).exc = some PyExc.busErr) ∧
    (∀ (d : Drv) (bus : Bus) (freq : ℚ) (m : ℕ),
      bus.readData d.DRIVER_ADDR MODE1 = some m →
      (setFreq d bus freq).exc ≠ some PyExc.busErr) ∧
    (∀ (d : Drv) (bus : Bus), (initDriver d bus).exc = (setFreq d bus 60).exc) := by
  refine ⟨?_, ?_, ?_, fun d bus => rfl⟩
  · intro d bus c onT offT
    unfold servoRun
    rcases htw : tryWrites bus d.DRIVER_ADDR
        ((servoWrites c onT offT).map (fun p => (p.1, (p.2 : ℤ)))) with ⟨evs, ok⟩
    rw [htw]
    cases ok
    · simp
    · rw [getattr_Debug]; simp
  · intro d bus freq h
    unfold setFreq
    rw [h]
  · intro d bus freq m h
    unfold setFreq
    rw [h]
    show (setFreqAfterRead d bus freq (m : ℤ)).exc ≠ some PyExc.busErr
    unfold setFreqAfterRead
    rcases htw : tryWrites bus d.DRIVER_ADDR (setFreqWrites (m : ℤ) freq) with ⟨evs, ok⟩
    cases ok
    · simp
    · rw [getattr_Debug]; simp

/-- Witness for C2: the read-failure case propagates a bus error, the
successful-read case never does. -/
theorem spec_C2_witness :
    (setFreq drv0 readFailBus 60).exc = some PyExc.busErr ∧
    (setFreq drv0 okBus 60).exc ≠ some PyExc.busErr :=
  ⟨spec_C2.2.1 drv0 readFailBus 60 rfl, spec_C2.2.2.1 drv0 okBus 60 0 rfl⟩

/-- Claim C3: on a bus whose every write primitive raises BusIOError
while reads succeed, initialize, setFreq and servo all return normally
(no exception escapes) and each prints a diagnostic. -/
theorem spec_C3 (d : Drv) (bus : Bus) (freq : ℚ) (c onT offT : ℕ)
    (hwb : ∀ a r, bus.writeByteOk a r = false)
    (hwd : ∀ a r v, bus.writeDataOk a r v = false)
    (hrd : ∀ a r, (bus.readData a r).isSome) :
    (initDriver d bus).exc = none ∧ (initDriver d bus).diags ≠ [] ∧
    (setFreq d bus freq).exc = none ∧ (setFreq d bus freq).diags ≠ [] ∧
    (servoRun d bus c onT offT).exc = none ∧ (servoRun d bus c onT offT).diags ≠ [] := by
  have hsf : ∀ fq : ℚ, setFreq d bus fq = ⟨[], [setFreqErrMsg d.DRIVER_ADDR fq], none, []⟩ := by
    intro fq
    obtain ⟨m, hm⟩ := Option.isSome_iff_exists.mp (hrd d.DRIVER_ADDR MODE1)
    unfold setFreq
    rw [hm]
    show setFreqAfterRead d bus fq (m : ℤ) = _
    unfold setFreqAfterRead
    have htw : tryWrites bus d.DRIVER_ADDR (setFreqWrites (m : ℤ) fq) = ([], false) := by
      simp [setFreqWrites, tryWrites, hwd]
    rw [htw]
  have hit : initTryBlock d bus = ([], false) := by
    unfold initTryBlock
    rw [hwb]
    simp
  have hsrv : servoRun d bus c onT offT =
      ⟨[], [servoErrMsg c d.DRIVER_ADDR], none, []⟩ := by
    unfold servoRun
    have htw : tryWrites bus d.DRIVER_ADDR
        ((servoWrites c onT offT).map (fun p => (p.1, (p.2 : ℤ)))) = ([], false) := by
      simp [servoWrites, tryWrites, hwd]
    rw [htw]
  refine ⟨?_, ?_, ?_, ?_, ?_, ?_⟩
  · show (setFreq d bus 60).exc = none
    rw [hsf]
  · show _ ++ _ ≠ ([] : List String)
    rw [hit, hsf]
    simp
  · rw [hsf]
  · rw [hsf]; simp
  · rw [hsrv]
  · rw [hsrv]; simp

/-- Witness for C3 on the all-writes-fail bus. -/
theorem spec_C3_witness :
    (initDriver drv0 writeFailBus).exc = none ∧
    (initDriver drv0 writeFailBus).diags ≠ [] ∧
    (servoRun drv0 writeFailBus 0 0 150).exc = none :=
  ⟨(spec_C3 drv0 writeFailBus 60 0 0 150 (fun _ _ => rfl) (fun _ _ _ => rfl)
      (fun _ _ => rfl)).1,
   (spec_C3 drv0 writeFailBus 60 0 0 150 (fun _ _ => rfl) (fun _ _ _ => rfl)
      (fun _ _ => rfl)).2.1,
   (spec_C3 drv0 writeFailBus 60 0 0 150 (fun _ _ => rfl) (fun _ _ _ => rfl)
      (fun _ _ => rfl)).2.2.2.2.1⟩

/-- Claim C8: initialize on a fresh chip stub followed by
turn_degrees(channel=0, deg=90) makes exactly one servo invocation,
with on = 0 and off = 375. -/
theorem spec_C8 (d : Drv) (bus : Bus)
    (_hwb : ∀ a r, bus.writeByteOk a r = true)
    (_hwd : ∀ a r v, bus.writeDataOk a r v = true)
    (_hrd : ∀ a r, (bus.readData a r).isSome) :
    (initDriver d bus).servoCalls ++
      (turn_degrees d (some 0) (some 90) none).servoCalls = [(0, 0, 375)] := by
  show ([] : List (ℕ × ℕ × ℝ)) ++ [(0, 0, pulseOfDeg 90)] = [(0, 0, 375)]
  rw [pulseOfDeg_ninety]
  rfl

/-- Witness for C8 on the fully working chip stub. -/
theorem spec_C8_witness :
    (initDriver drv0 okBus).servoCalls ++
      (turn_degrees drv0 (some 0) (some 90) none).servoCalls = [(0, 0, 375)] :=
  spec_C8 drv0 okBus (fun _ _ => rfl) (fun _ _ _ => rfl) (fun _ _ => rfl)

/-- Claim C9: the constructor assigns DEBUG but never Debug, so whenever
every bus transaction succeeds, the success (else) branch of setFreq and
of servo dereferences the missing attribute Debug and AttributeError
escapes, whatever the value of the DEBUG flag. -/
theorem spec_C9 (d : Drv) (bus : Bus) (freq : ℚ) (c onT offT : ℕ)
    (hwd : ∀ a r v, bus.writeDataOk a r v = true)
    (hrd : ∀ a r, (bus.readData a r).isSome) :
    d.getattr ("DEBUG") = some d.DEBUG ∧ d.getattr ("Debug") = none ∧
    (setFreq d bus freq).exc = some PyExc.attrErr ∧
    (servoRun d bus c onT offT).exc = some PyExc.attrErr := by
  refine ⟨getattr_DEBUG d, getattr_Debug d, ?_, ?_⟩
  · obtain ⟨m, hm⟩ := Option.isSome_iff_exists.mp (hrd d.DRIVER_ADDR MODE1)
    unfold setFreq
    rw [hm]
    show (setFreqAfterRead d bus freq (m : ℤ)).exc = some PyExc.attrErr
    unfold setFreqAfterRead
    rw [tryWrites_all_ok bus d.DRIVER_ADDR (fun r v => hwd d.DRIVER_ADDR r v),
      getattr_Debug]
  · unfold servoRun
    rw [tryWrites_all_ok bus d.DRIVER_ADDR (fun r v => hwd d.DRIVER_ADDR r v),
      getattr_Debug]

/-- Witness for C9 on the fully working chip stub. -/
theorem spec_C9_witness :
    (setFreq drv0 okBus 60).exc = some PyExc.attrErr ∧
    (servoRun drv0 okBus 0 0 150).exc = some PyExc.attrErr :=
  ⟨(spec_C9 drv0 okBus 60 0 0 150 (fun _ _ _ => rfl) (fun _ _ => rfl)).2.2.1,
   (spec_C9 drv0 okBus 60 0 0 150 (fun _ _ _ => rfl) (fun _ _ => rfl)).2.2.2⟩
